import Mathlib

set_option autoImplicit false

/-! Shallow embedding of the job-control core of the `zerosh` shell
    (src/zerosh/src/shell.rs with the command model of src/zerosh/src/model.rs).

    Modelling conventions, applied uniformly:
    - Rust `Pid` values are `Nat` (the shell only ever stores real child pids).
    - `BTreeMap` (the `jobs` table) is an association list kept in ascending key
      order by `alist_insert`, matching `BTreeMap` iteration order; `HashMap` and
      `HashSet` are association lists / lists as well — the theorems below never
      depend on their (unspecified) iteration order except through collections
      with at most one element.
    - A Rust function that can panic (a failing `assert!`, `unwrap()` of `None`)
      is modelled with an `Option` result, `none` being the panic.
    - Side effects other than registry mutation (messages to the main thread,
      `tcsetpgrp`, `killpg(..., SIGCONT)`, `eprintln!`/`println!`) are returned
      as an explicit `Effect` list, in the order the source performs them.
    - `fork` is nondeterministic process creation: the fresh child pid is passed
      in as an `Option Nat` argument (`none` models `fork` itself failing).
      Mutations a forked child performs on its copy of a data structure are
      invisible to the parent, so only the parent branch of `fork_exec` can
      contribute entries to the Worker's `pids` map. -/

/-- Lookup in an association list, mirroring `HashMap::get` / `BTreeMap::get`. -/
def alist_lookup {α : Type} (k : Nat) : List (Nat × α) → Option α
  | [] => none
  | (k', v) :: rest => if k = k' then some v else alist_lookup k rest

/-- Order-preserving insert (replacing an existing binding), mirroring
    `BTreeMap::insert`; also used for the `HashMap`s, whose iteration order the
    theorems never rely on. -/
def alist_insert {α : Type} (k : Nat) (v : α) : List (Nat × α) → List (Nat × α)
  | [] => [(k, v)]
  | (k', v') :: rest =>
    if k < k' then (k, v) :: (k', v') :: rest
    else if k = k' then (k, v) :: rest
    else (k', v') :: alist_insert k v rest

/-- Remove a key's binding, mirroring `BTreeMap::remove` / `HashMap::remove`
    (the removed value, when needed, is read off with `alist_lookup` first). -/
def alist_erase {α : Type} (k : Nat) : List (Nat × α) → List (Nat × α)
  | [] => []
  | (k', v) :: rest => if k = k' then rest else (k', v) :: alist_erase k rest

/-- Run/stop state of one process (`enum ProcState` in shell.rs). -/
inductive ProcState
  | Run
  | Stop
deriving DecidableEq, Repr

/-- Per-process record (`struct ProcInfo` in shell.rs). -/
structure ProcInfo where
  state : ProcState
  pgid : Nat
deriving DecidableEq, Repr

/-- Message from the worker to the main (front-end) thread (`enum ShellMsg`). -/
inductive ShellMsg
  | Continue (n : Int)
  | Quit (n : Int)
deriving DecidableEq, Repr

/-- Observable side effects of a worker step, in program order:
    `setFgTerm pgid` is `tcsetpgrp(STDIN_FILENO, pgid)`, `contSig pgid` is
    `killpg(pgid, SIGCONT)`, `send` is a message on `shell_tx`, and
    `printErr` / `printOut` are `eprintln!` / `println!`. -/
inductive Effect
  | setFgTerm (pgid : Nat)
  | contSig (pgid : Nat)
  | send (msg : ShellMsg)
  | printErr (s : String)
  | printOut (s : String)
deriving DecidableEq, Repr

/-- Output redirection of one pipeline stage (`enum Redirection` in model.rs). -/
inductive Redirection
  | stdOut (path : String)
  | both (path : String)
  | append (path : String)
deriving DecidableEq, Repr

/-- One external-command stage (`struct ExternalCmd` in model.rs). -/
structure ExternalCmd where
  args : List String
  redirect : Option Redirection
deriving DecidableEq, Repr

/-- Display text of a stage (the `Display` impl in model.rs: args joined by spaces). -/
def ExternalCmd.cmd_line (c : ExternalCmd) : String :=
  String.intercalate " " c.args

/-- The worker's registry and terminal-control state (`struct Worker` in shell.rs).
    `jobs` maps job id to (pgid, command line); `pgid_to_pids` maps a process
    group id to (owning job id, member pid set); `pid_to_info` is the process
    registry; `fg = some pgid` means that group owns the terminal, `none` means
    the shell does. -/
structure Worker where
  exit_val : Int
  fg : Option Nat
  jobs : List (Nat × Nat × String)
  pgid_to_pids : List (Nat × Nat × List Nat)
  pid_to_info : List (Nat × ProcInfo)
  shell_pgid : Nat
deriving DecidableEq, Repr

/-- Fresh worker (`Worker::new`): empty tables, last status 0, terminal with the
    shell, whose own process group id is `shell_pgid` (from `tcgetpgrp`). -/
def Worker.new (shell_pgid : Nat) : Worker :=
  { exit_val := 0, fg := none, jobs := [], pgid_to_pids := [], pid_to_info := [],
    shell_pgid := shell_pgid }

/-- Smallest unused job id (`Worker::get_new_job_id`).  The Rust loop scans
    `0..=usize::MAX`; since at most `jobs.length` keys are in use, scanning
    `0..jobs.length` inclusive finds the same smallest free id (the Rust `None`
    case needs every representable integer in use and has no finite-state
    counterpart). -/
def get_new_job_id (w : Worker) : Option Nat :=
  (List.range (w.jobs.length + 1)).find? (fun i => (alist_lookup i w.jobs).isNone)

/-- The per-pid loop inside `Worker::insert_job`: add every spawned process to
    `pid_to_info` (the `assert!` that the pid is not already registered is the
    `none` case) and collect the member set for `pgid_to_pids`. -/
def insert_procs : Worker → List (Nat × ProcInfo) → List Nat → Option (Worker × List Nat)
  | w, [], procs => some (w, procs)
  | w, (pid, info) :: rest, procs =>
    if (alist_lookup pid w.pid_to_info).isSome then none
    else
      insert_procs { w with pid_to_info := alist_insert pid info w.pid_to_info }
        rest (procs ++ [pid])

/-- Register a new job (`Worker::insert_job`): `none` models one of its
    `assert!`s firing (job id, a pid, or the pgid already in use). -/
def insert_job (w : Worker) (job_id pgid : Nat) (pids : List (Nat × ProcInfo))
    (line : String) : Option Worker :=
  if (alist_lookup job_id w.jobs).isSome then none
  else
    let w1 := { w with jobs := alist_insert job_id (pgid, line) w.jobs }
    match insert_procs w1 pids [] with
    | none => none
    | some (w2, procs) =>
      if (alist_lookup pgid w2.pgid_to_pids).isSome then none
      else some { w2 with pgid_to_pids := alist_insert pgid (job_id, procs) w2.pgid_to_pids }

/-- Set a process's run state, returning the previous one
    (`Worker::set_pid_state`); an unknown pid yields `(none, unchanged)`. -/
def set_pid_state (w : Worker) (pid : Nat) (st : ProcState) : Option ProcState × Worker :=
  match alist_lookup pid w.pid_to_info with
  | none => (none, w)
  | some info =>
    (some info.state,
     { w with pid_to_info := alist_insert pid { info with state := st } w.pid_to_info })

/-- Remove a process on termination (`Worker::remove_pid`).  Exactly as in the
    source, the pid is removed from its group's member set only — the
    `pid_to_info` entry is left in place — and the owning (job id, pgid) pair is
    returned; an unknown pid (either lookup failing) returns `none` with the
    state untouched. -/
def remove_pid (w : Worker) (pid : Nat) : Option (Nat × Nat × Worker) :=
  match alist_lookup pid w.pid_to_info with
  | none => none
  | some info =>
    match alist_lookup info.pgid w.pgid_to_pids with
    | none => none
    | some (job_id, pids) =>
      some (job_id, info.pgid,
        { w with pgid_to_pids :=
            alist_insert info.pgid (job_id, pids.filter (fun q => q ≠ pid)) w.pgid_to_pids })

/-- Delete a job together with its group entry (`Worker::remove_job`); the
    `assert!` that the member set is already empty is the `none` case. -/
def remove_job (w : Worker) (job_id : Nat) : Option Worker :=
  match alist_lookup job_id w.jobs with
  | none => some w
  | some (pgid, _) =>
    let w1 := { w with jobs := alist_erase job_id w.jobs }
    match alist_lookup pgid w1.pgid_to_pids with
    | none => some w1
    | some (_, pids) =>
      if pids.isEmpty then some { w1 with pgid_to_pids := alist_erase pgid w1.pgid_to_pids }
      else none

/-- Is the group's member set empty (`Worker::is_group_empty`)?  The source
    `unwrap`s the group lookup, so an unknown pgid is a panic (`none`). -/
def is_group_empty (w : Worker) (pgid : Nat) : Option Bool :=
  (alist_lookup pgid w.pgid_to_pids).map (fun e => e.2.isEmpty)

/-- The member loop of `Worker::is_group_stop`: first running member short-
    circuits to `some false`; a member pid missing from `pid_to_info` is the
    `unwrap` panic (`none`); an exhausted loop yields `some true`. -/
def group_stop_loop (w : Worker) : List Nat → Option Bool
  | [] => some true
  | pid :: rest =>
    match alist_lookup pid w.pid_to_info with
    | none => none
    | some info =>
      if info.state = ProcState.Run then some false else group_stop_loop w rest

/-- Fully-stopped query (`Worker::is_group_stop`).  The outer `Option` is the
    panic channel; the inner one is the function's own `Option<bool>` result,
    `some none` being Rust's `None` for an unknown pgid (the `?` operator). -/
def is_group_stop (w : Worker) (pgid : Nat) : Option (Option Bool) :=
  match alist_lookup pgid w.pgid_to_pids with
  | none => some none
  | some (_, pids) => (group_stop_loop w pids).map some

/-- Return the terminal to the shell and resume the front end
    (`Worker::set_shell_fg`). -/
def set_shell_fg (w : Worker) : Worker × List Effect :=
  ({ w with fg := none },
   [Effect.setFgTerm w.shell_pgid, Effect.send (ShellMsg.Continue w.exit_val)])

/-- Error line of a refused `exit` (shell.rs, `run_exit`). -/
def exit_refused_msg : String := "zerosh: Couldn't quit, there are some running jobs"

/-- Error line when the job table is exhausted (shell.rs, `spawn_child`). -/
def too_many_jobs_msg : String :=
  "zerosh: Couldn't spawn child process, too many jobs already exists"

/-- Error line when `fork` fails (shell.rs, `spawn_child`; the dynamic OS error
    text is abstracted away). -/
def fork_failed_msg : String := "zerosh: Failed to fork"

/-- Completion notice printed by `manage_job`. -/
def done_notice (job_id : Nat) (line : String) : String :=
  "\n[" ++ toString job_id ++ "] Done\t" ++ line

/-- Stop notice printed by `manage_job` (the source's format string reads
    `"\n[{job_id}Stopped\t{line}"`, without a closing bracket). -/
def stop_notice (job_id : Nat) (line : String) : String :=
  "\n[" ++ toString job_id ++ "Stopped\t" ++ line

/-- Restart notice printed by a successful `fg` (shell.rs, `run_fg`). -/
def restart_notice (n : Int) (cmd : String) : String :=
  "[" ++ toString n ++ "]: Restart\t" ++ cmd

/-- Error line of `fg` with an unknown job id (shell.rs, `run_fg`). -/
def job_not_found_msg (n : Int) : String :=
  "job " ++ toString n ++ " not found"

/-- One `println!` line of the `jobs` built-in (shell.rs, `run_jobs`):
    format `[<job_id>] <Running|Stopped>\t<command_line>`. -/
def mk_jobs_line (job_id : Nat) (stopped : Bool) (cmd : String) : String :=
  "[" ++ toString job_id ++ "] " ++ (if stopped then "Stopped" else "Running") ++ "\t" ++ cmd

/-- Rust's `n as usize` for the `i32` argument of `fg` (sign-extension then
    reinterpretation modulo 2^64). -/
def i32_as_usize (n : Int) : Nat := (n % (2 ^ 64 : Int)).toNat

/-- The `exit` built-in (`Worker::run_exit`): refused with `Continue(1)` while
    jobs are live; otherwise `Quit` with the argument or the last status. -/
def run_exit (w : Worker) (n : Option Int) : Worker × List Effect :=
  if ¬ w.jobs.isEmpty then
    let w' := { w with exit_val := 1 }
    (w', [Effect.printErr exit_refused_msg, Effect.send (ShellMsg.Continue w'.exit_val)])
  else
    (w, [Effect.send (ShellMsg.Quit (n.getD w.exit_val))])

/-- The printing loop of `Worker::run_jobs` over the (ascending) `jobs` table:
    `none` models the `unwrap` panics (job's group missing, or a member pid
    missing inside `is_group_stop`). -/
def jobs_lines (w : Worker) : List (Nat × Nat × String) → Option (List Effect)
  | [] => some []
  | (job_id, pgid, cmd) :: rest =>
    match is_group_stop w pgid with
    | none => none
    | some none => none
    | some (some st) =>
      match jobs_lines w rest with
      | none => none
      | some others => some (Effect.printOut (mk_jobs_line job_id st cmd) :: others)

/-- The `jobs` built-in (`Worker::run_jobs`): print every live job, set the
    status to 0 and resume the front end. -/
def run_jobs (w : Worker) : Option (Worker × List Effect) :=
  match jobs_lines w w.jobs with
  | none => none
  | some lines =>
    some ({ w with exit_val := 0 }, lines ++ [Effect.send (ShellMsg.Continue 0)])

/-- Decidable reading of the fully-stopped query used to state what label
    `run_jobs` prints: `true` exactly when `is_group_stop` answers `Some(true)`. -/
def group_stopped (w : Worker) (pgid : Nat) : Bool :=
  match is_group_stop w pgid with
  | some (some true) => true
  | _ => false

/-- The `fg` built-in (`Worker::run_fg`): the status is provisionally set to 1;
    a live job gets the terminal (`tcsetpgrp`) and a `SIGCONT`, with no message
    to the front end; an unknown id prints an error and resumes the front end. -/
def run_fg (w : Worker) (n : Int) : Worker × List Effect :=
  let w1 := { w with exit_val := 1 }
  match alist_lookup (i32_as_usize n) w1.jobs with
  | some (pgid, cmd) =>
    ({ w1 with fg := some pgid },
     [Effect.printErr (restart_notice n cmd), Effect.setFgTerm pgid, Effect.contSig pgid])
  | none =>
    (w1, [Effect.printErr (job_not_found_msg n), Effect.send (ShellMsg.Continue w1.exit_val)])

/-- Parent-visible outcome of `fork_exec` (shell.rs): the parent branch puts the
    child into its own group (`setpgid(child, 0)`) and records the single entry
    `child ↦ {state: Run, pgid: child}`.  The child branch's recursive
    `do_pipeline` runs in the forked copy of the address space and `exec`s, so
    none of its `pids.insert` calls reach the Worker.  `fresh = none` models
    `fork` failing. -/
def fork_exec_parent (fresh : Option Nat) : Option (Nat × List (Nat × ProcInfo)) :=
  fresh.map (fun child => (child, [(child, { state := ProcState.Run, pgid := child })]))

/-- Launch an external pipeline (`Worker::spawn_child`).  The `Bool` result is
    the source's return value (`false` asks the caller to resume the front
    end); outer `none` models a panic (`assert_ne!(cmd.len(), 0)` or an
    `insert_job` assert).  Note the source registers the job and hands over the
    terminal only in the `!is_bg` branch. -/
def spawn_child (w : Worker) (cmd : List ExternalCmd) (is_bg : Bool)
    (fresh : Option Nat) : Option (Worker × Bool × List Effect) :=
  if cmd.length = 0 then none
  else
    match get_new_job_id w with
    | none => some (w, false, [Effect.printErr too_many_jobs_msg])
    | some job_id =>
      match fork_exec_parent fresh with
      | none => some (w, false, [Effect.printErr fork_failed_msg])
      | some (pgid, pids) =>
        if is_bg then some (w, true, [])
        else
          let w1 := { w with fg := some pgid }
          let line := String.intercalate " | " (cmd.map ExternalCmd.cmd_line)
          match insert_job w1 job_id pgid pids line with
          | none => none
          | some w2 => some (w2, true, [Effect.setFgTerm pgid])

/-- The worker loop's handling of an external command (shell.rs, the
    `model::Job::External` arm): when `spawn_child` returns `false` the loop
    sends `Continue(exit_val)`, otherwise nothing. -/
def on_external (w : Worker) (cmds : List ExternalCmd) (is_bg : Bool)
    (fresh : Option Nat) : Option (Worker × List Effect) :=
  (spawn_child w cmds is_bg fresh).map (fun r =>
    if r.2.1 then (r.1, r.2.2)
    else (r.1, r.2.2 ++ [Effect.send (ShellMsg.Continue r.1.exit_val)]))

/-- Re-evaluate a job after a state change (`Worker::manage_job`): a foreground
    group that emptied or fully stopped returns the terminal to the shell; a
    background group that emptied is deleted and announced.  `none` models the
    `unwrap` panics (job id missing from `jobs`, group missing, or
    `remove_job`'s assert). -/
def manage_job (w : Worker) (job_id : Nat) (pgid : Nat) : Option (Worker × List Effect) :=
  match alist_lookup job_id w.jobs with
  | none => none
  | some (_, line) =>
    if w.fg = some pgid then
      match is_group_empty w pgid with
      | none => none
      | some true =>
        match remove_job w job_id with
        | none => none
        | some w1 =>
          let r := set_shell_fg w1
          some (r.1, Effect.printErr (done_notice job_id line) :: r.2)
      | some false =>
        match is_group_stop w pgid with
        | none => none
        | some none => none
        | some (some true) =>
          let r := set_shell_fg w
          some (r.1, Effect.printErr (stop_notice job_id line) :: r.2)
        | some (some false) => some (w, [])
    else
      match is_group_empty w pgid with
      | none => none
      | some true =>
        match remove_job w job_id with
        | none => none
        | some w1 => some (w1, [Effect.printErr (done_notice job_id line)])
      | some false => some (w, [])

/-- Termination handling (`Worker::process_term`): an unknown pid is benign
    (`remove_pid` returns `None` and nothing happens). -/
def process_term (w : Worker) (pid : Nat) : Option (Worker × List Effect) :=
  match remove_pid w pid with
  | none => some (w, [])
  | some (job_id, pgid, w1) => manage_job w1 job_id pgid

/-- Stop handling (`Worker::process_stop`): mark the pid stopped, then the
    source `unwrap`s the registry lookups — an unknown pid is a panic
    (`none`). -/
def process_stop (w : Worker) (pid : Nat) : Option (Worker × List Effect) :=
  let w1 := (set_pid_state w pid ProcState.Stop).2
  match alist_lookup pid w1.pid_to_info with
  | none => none
  | some info =>
    match alist_lookup info.pgid w1.pgid_to_pids with
    | none => none
    | some (job_id, _) => manage_job w1 job_id info.pgid

/-- Continue handling (`Worker::process_continue`): mark the pid running; an
    unknown pid is silently ignored. -/
def process_continue (w : Worker) (pid : Nat) : Worker :=
  (set_pid_state w pid ProcState.Run).2

/-- Child-state notification as reported by `waitpid` (nix `WaitStatus`;
    signals are abstracted to their numbers). -/
inductive WaitStatus
  | Exited (pid : Nat) (status : Int)
  | Signaled (pid : Nat) (sig : Int) (core : Bool)
  | Stopped (pid : Nat)
  | Continued (pid : Nat)
  | StillAlive
deriving DecidableEq, Repr

/-- Diagnostic line for a signal-terminated child (`Worker::wait_child`; the
    signal is rendered by number rather than by nix's debug name). -/
def signaled_notice (pid : Nat) (sig : Int) (core : Bool) : String :=
  "\nzerosh: Child process terminated by signal" ++
    (if core then " (core dumped)" else "") ++
    ": pid = " ++ toString pid ++ ", signal = " ++ toString sig

/-- One iteration of the reaping loop in `Worker::wait_child`: record the exit
    status and run the matching process handler. -/
def handle_wait_status (w : Worker) : WaitStatus → Option (Worker × List Effect)
  | WaitStatus.Exited pid status => process_term { w with exit_val := status } pid
  | WaitStatus.Signaled pid sig core =>
    (process_term { w with exit_val := sig + 128 } pid).map
      (fun r => (r.1, Effect.printErr (signaled_notice pid sig core) :: r.2))
  | WaitStatus.Stopped pid => process_stop w pid
  | WaitStatus.Continued pid => some (process_continue w pid, [])
  | WaitStatus.StillAlive => some (w, [])

/-- Flags passed to `nix::fcntl::open` in the redirect handler. -/
inductive OFlag
  | O_WRONLY
  | O_CREAT
  | O_TRUNC
  | O_APPEND
deriving DecidableEq, Repr

/-- Descriptor-level steps a stage performs before `exec` (`open`, `close`,
    `dup2` in `do_pipeline`'s `handle_redirect` closure). -/
inductive FdAction
  | openFile (path : String) (flags : List OFlag)
  | closeFd (fd : Nat)
  | dupTo (src dst : Nat)
deriving DecidableEq, Repr

/-- Standard-output descriptor number. -/
def STDOUT_FILENO : Nat := 1

/-- The `handle_redirect` closure of `do_pipeline` (shell.rs): only the plain
    `Stdout` redirection is matched (the source carries a TODO for the rest),
    opening the target with `O_WRONLY | O_CREAT` and duplicating the returned
    descriptor `fd` onto standard output; every other redirection — append,
    combined-streams, or none — performs no descriptor action at all. -/
def handle_redirect (redirect : Option Redirection) (fd : Nat) : List FdAction :=
  match redirect with
  | some (Redirection.stdOut out) =>
    [FdAction.openFile out [OFlag.O_WRONLY, OFlag.O_CREAT],
     FdAction.closeFd STDOUT_FILENO,
     FdAction.dupTo fd STDOUT_FILENO,
     FdAction.closeFd fd]
  | _ => []

/-! Helper lemmas about the association-list operations. -/

theorem alist_lookup_insert_self {α : Type} (k : Nat) (v : α) (l : List (Nat × α)) :
    alist_lookup k (alist_insert k v l) = some v := by
  induction l with
  | nil => simp [alist_insert, alist_lookup]
  | cons p rest ih =>
    obtain ⟨k', v'⟩ := p
    by_cases h1 : k < k'
    · simp [alist_insert, h1, alist_lookup]
    · by_cases h2 : k = k'
      · simp [alist_insert, h1, h2, alist_lookup]
      · simp [alist_insert, h1, h2, alist_lookup, ih]

/-! Claim theorems. -/

def c1_cmd : ExternalCmd := { args := ["cat"], redirect := none }

/-- The reachable trace exhibiting C1's failure: from a fresh worker, launch the
    one-stage foreground job `cat` (forked child pid 100), then reap the
    `Exited(100, 0)` notification. -/
def c1_traced : Option (Worker × List Effect) :=
  match spawn_child (Worker.new 10) [c1_cmd] false (some 100) with
  | none => none
  | some r => handle_wait_status r.1 (WaitStatus.Exited 100 0)

/-- C1: refuted on the code — after the Exited notification for the job's only
    process, the job and its group entry are gone but pid 100 is still a key of
    the process registry `pid_to_info`, because `remove_pid` deletes the pid
    from its group's member set only.  The member sets referenced by
    `pgid_to_pids` (none are left) therefore do not equal the key set of
    `pid_to_info` (`{100}`). -/
theorem C1_exited_leaves_pid_in_registry :
    c1_traced.map (fun r => (r.1.pid_to_info, r.1.pgid_to_pids, r.1.jobs, r.1.fg)) =
      some ([(100, { state := ProcState.Run, pgid := 100 })], [], [], none) := by
  rfl

/-- A worker with one live background-style job, used to show C3's failure. -/
def c3w : Worker :=
  { exit_val := 0, fg := none, jobs := [(0, 9, "cat")],
    pgid_to_pids := [(9, 0, [9])],
    pid_to_info := [(9, { state := ProcState.Run, pgid := 9 })],
    shell_pgid := 10 }

def c3_cmds : List ExternalCmd := [{ args := ["sleep", "10"], redirect := none }]

/-- C3: refuted on the code — a successfully forked backgrounded command leaves
    the worker state completely unchanged (no job, group or process entry is
    added, since `spawn_child` registers only in the `!is_bg` branch) and
    produces no effect at all: in particular the worker loop sends no
    `Continue`, so the front end is never resumed. -/
theorem C3_background_job_not_registered :
    spawn_child c3w c3_cmds true (some 200) = some (c3w, true, []) ∧
    on_external c3w c3_cmds true (some 200) = some (c3w, []) := by
  decide

/-- C5: `exit` with a non-empty job table prints the refusal and sends
    `Continue(1)` leaving the job table unchanged; with an empty table,
    `exit 3` sends `Quit(3)` and plain `exit` with last status 7 sends
    `Quit(7)`. -/
theorem C5_exit_builtin :
    (∀ (w : Worker) (n : Option Int), w.jobs ≠ [] →
      run_exit w n = ({ w with exit_val := 1 },
        [Effect.printErr exit_refused_msg, Effect.send (ShellMsg.Continue 1)]) ∧
      ({ w with exit_val := 1 } : Worker).jobs = w.jobs) ∧
    (∀ w : Worker, w.jobs = [] →
      run_exit w (some 3) = (w, [Effect.send (ShellMsg.Quit 3)])) ∧
    (∀ w : Worker, w.jobs = [] → w.exit_val = 7 →
      run_exit w none = (w, [Effect.send (ShellMsg.Quit 7)])) := by
  refine ⟨?_, ?_, ?_⟩
  · intro w n h
    have he : w.jobs.isEmpty = false := by
      cases hj : w.jobs with
      | nil => exact absurd hj h
      | cons a l => simp
    simp [run_exit, he]
  · intro w h
    simp [run_exit, h]
  · intro w h h7
    simp [run_exit, h, h7]

def c5w_busy : Worker :=
  { exit_val := 0, fg := none, jobs := [(0, 9, "cat")],
    pgid_to_pids := [(9, 0, [9])],
    pid_to_info := [(9, { state := ProcState.Run, pgid := 9 })],
    shell_pgid := 10 }

def c5w_idle : Worker :=
  { exit_val := 7, fg := none, jobs := [], pgid_to_pids := [], pid_to_info := [],
    shell_pgid := 10 }

/-- Witness for C5 on a worker with one live job and on an idle worker whose
    last status is 7. -/
theorem C5_exit_builtin_witness :
    run_exit c5w_busy (some 3) = ({ c5w_busy with exit_val := 1 },
      [Effect.printErr exit_refused_msg, Effect.send (ShellMsg.Continue 1)]) ∧
    run_exit c5w_idle (some 3) = (c5w_idle, [Effect.send (ShellMsg.Quit 3)]) ∧
    run_exit c5w_idle none = (c5w_idle, [Effect.send (ShellMsg.Quit 7)]) :=
  ⟨(C5_exit_builtin.1 c5w_busy (some 3) (by decide)).1,
   C5_exit_builtin.2.1 c5w_idle rfl,
   C5_exit_builtin.2.2 c5w_idle rfl rfl⟩

/-- C6: `fg` on a job id absent from the job table mutates nothing but the
    status field (set to 1), prints the error line, and sends `Continue(1)` —
    never a `Quit`. -/
theorem C6_fg_unknown_job (w : Worker) (n : Int)
    (h : alist_lookup (i32_as_usize n) w.jobs = none) :
    run_fg w n = ({ w with exit_val := 1 },
      [Effect.printErr (job_not_found_msg n), Effect.send (ShellMsg.Continue 1)]) ∧
    (∀ s, Effect.send (ShellMsg.Quit s) ∉ (run_fg w n).2) := by
  have h1 : run_fg w n = ({ w with exit_val := 1 },
      [Effect.printErr (job_not_found_msg n), Effect.send (ShellMsg.Continue 1)]) := by
    simp [run_fg, h]
  refine ⟨h1, ?_⟩
  intro s
  rw [h1]
  simp

/-- Witness for C6 on a fresh worker and job id 0. -/
theorem C6_fg_unknown_job_witness :
    alist_lookup (i32_as_usize 0) (Worker.new 10).jobs = none ∧
    run_fg (Worker.new 10) 0 = ({ Worker.new 10 with exit_val := 1 },
      [Effect.printErr (job_not_found_msg 0), Effect.send (ShellMsg.Continue 1)]) :=
  ⟨by decide, (C6_fg_unknown_job (Worker.new 10) 0 (by decide)).1⟩

/-- C9: a `Stopped` notification for a pid unknown to the process registry
    panics inside `process_stop` (modelled as `none`), while an
    Exited/Signaled notification for the same pid is benign: `process_term`
    returns with the worker unchanged and no effect. -/
theorem C9_stop_panics_term_benign (w : Worker) (pid : Nat)
    (h : alist_lookup pid w.pid_to_info = none) :
    process_stop w pid = none ∧ process_term w pid = some (w, []) := by
  constructor
  · simp [process_stop, set_pid_state, h]
  · simp [process_term, remove_pid, h]

/-- Witness for C9 on a fresh worker and pid 5. -/
theorem C9_stop_panics_term_benign_witness :
    alist_lookup 5 (Worker.new 10).pid_to_info = none ∧
    process_stop (Worker.new 10) 5 = none ∧
    process_term (Worker.new 10) 5 = some (Worker.new 10, []) :=
  ⟨rfl, C9_stop_panics_term_benign (Worker.new 10) 5 rfl⟩

def c2_cmds : List ExternalCmd :=
  [{ args := ["A"], redirect := none }, { args := ["B"], redirect := none },
   { args := ["C"], redirect := none }]

/-- C2: refuted as stated — after launching the three-stage pipeline `A | B | C`
    in the foreground, the job's group records exactly 1 member process, not 3:
    the second and third stages are forked inside the base child's copied
    address space, so their `pids.insert` calls never reach the worker. -/
theorem C2_counterexample_single_member :
    ((spawn_child (Worker.new 10) c2_cmds false (some 100)).map
      (fun r => (alist_lookup 100 r.1.pgid_to_pids).map (fun e => e.2.length))) =
      some (some 1) ∧
    ((spawn_child (Worker.new 10) c2_cmds false (some 100)).map
      (fun r => (alist_lookup 100 r.1.pgid_to_pids).map (fun e => e.2.length))) ≠
      some (some 3) := by
  constructor
  · rfl
  · decide

/-- C2 (amended): a successful non-backgrounded launch of a three-stage
    pipeline from a worker with empty tables registers exactly one job whose
    process group has exactly one recorded member — the pipeline's base process
    `p`, whose pid is the group id, recorded in `pid_to_info` with that group
    id and state Running — and the worker enters ForegroundBusy: `fg` is that
    group, the terminal is handed over, and no `Continue` is sent. -/
theorem C2_pipeline_registers_single_member (w : Worker) (a b c : ExternalCmd) (p : Nat)
    (h1 : w.jobs = []) (h2 : w.pgid_to_pids = []) (h3 : w.pid_to_info = []) :
    spawn_child w [a, b, c] false (some p) =
      some ({ w with
              fg := some p,
              jobs := [(0, p, String.intercalate " | " [a.cmd_line, b.cmd_line, c.cmd_line])],
              pgid_to_pids := [(p, 0, [p])],
              pid_to_info := [(p, { state := ProcState.Run, pgid := p })] },
            true, [Effect.setFgTerm p]) := by
  simp [spawn_child, get_new_job_id, h1, h2, h3, fork_exec_parent, insert_job,
    insert_procs, alist_lookup, alist_insert]
  rfl

/-- Witness for C2's amended theorem on a fresh worker and base pid 42. -/
theorem C2_pipeline_registers_single_member_witness :
    spawn_child (Worker.new 11)
        [{ args := ["x"], redirect := none }, { args := ["y"], redirect := none },
         { args := ["z"], redirect := none }] false (some 42) =
      some ({ Worker.new 11 with
              fg := some 42,
              jobs := [(0, 42, String.intercalate " | "
                [ExternalCmd.cmd_line { args := ["x"], redirect := none },
                 ExternalCmd.cmd_line { args := ["y"], redirect := none },
                 ExternalCmd.cmd_line { args := ["z"], redirect := none }])],
              pgid_to_pids := [(42, 0, [42])],
              pid_to_info := [(42, { state := ProcState.Run, pgid := 42 })] },
            true, [Effect.setFgTerm 42]) :=
  C2_pipeline_registers_single_member (Worker.new 11)
    { args := ["x"], redirect := none } { args := ["y"], redirect := none }
    { args := ["z"], redirect := none } 42 rfl rfl rfl

/-- A worker whose foreground group 5 is present with an empty member set. -/
def c4w : Worker :=
  { exit_val := 3, fg := some 5, jobs := [(2, 5, "wc")],
    pgid_to_pids := [(5, 2, [])], pid_to_info := [], shell_pgid := 10 }

/-- C4: refuted as stated — on a group present with an empty member set the
    fully-stopped query answers `Some(true)` (the member loop is vacuous), not
    "not stopped". -/
theorem C4_counterexample_empty_group_reported_stopped :
    is_group_stop c4w 5 = some (some true) ∧
    is_group_stop c4w 5 ≠ some (some false) := by
  decide

/-- C4 (amended): `is_group_stop` reports a group with an empty member set as
    stopped, vacuously; emptiness is nevertheless handled as completion and
    never as stoppage, because `manage_job` tests `is_group_empty` before the
    stopped query: the job and its group entry are removed and the Done notice
    printed (with terminal hand-back and `Continue` when the group was
    foreground) — the Stopped-notice path is not taken. -/
theorem C4_empty_group_completion (w : Worker) (jid pgid : Nat) (cmd : String)
    (h1 : alist_lookup pgid w.pgid_to_pids = some (jid, []))
    (h2 : alist_lookup jid w.jobs = some (pgid, cmd)) :
    is_group_stop w pgid = some (some true) ∧
    manage_job w jid pgid =
      (if w.fg = some pgid then
        some ({ w with
                jobs := alist_erase jid w.jobs,
                pgid_to_pids := alist_erase pgid w.pgid_to_pids, fg := none },
              [Effect.printErr (done_notice jid cmd), Effect.setFgTerm w.shell_pgid,
               Effect.send (ShellMsg.Continue w.exit_val)])
      else
        some ({ w with
                jobs := alist_erase jid w.jobs,
                pgid_to_pids := alist_erase pgid w.pgid_to_pids },
              [Effect.printErr (done_notice jid cmd)])) := by
  constructor
  · simp [is_group_stop, h1, group_stop_loop]
  · by_cases hfg : w.fg = some pgid <;>
      simp [manage_job, h1, h2, hfg, is_group_empty, remove_job, set_shell_fg]

/-- Witness for C4's amended theorem on the concrete worker `c4w`. -/
theorem C4_empty_group_completion_witness :
    alist_lookup 5 c4w.pgid_to_pids = some (2, []) ∧
    (is_group_stop c4w 5 = some (some true) ∧
     manage_job c4w 2 5 =
       (if c4w.fg = some 5 then
         some ({ c4w with
                 jobs := alist_erase 2 c4w.jobs,
                 pgid_to_pids := alist_erase 5 c4w.pgid_to_pids, fg := none },
               [Effect.printErr (done_notice 2 "wc"), Effect.setFgTerm c4w.shell_pgid,
                Effect.send (ShellMsg.Continue c4w.exit_val)])
       else
         some ({ c4w with
                 jobs := alist_erase 2 c4w.jobs,
                 pgid_to_pids := alist_erase 5 c4w.pgid_to_pids },
               [Effect.printErr (done_notice 2 "wc")]))) :=
  ⟨rfl, C4_empty_group_completion c4w 2 5 "wc" rfl rfl⟩

/-- C7: refuted as stated — an append-redirect and a combined-streams redirect
    perform no descriptor action at all before exec (no open in append mode,
    no duplication onto standard error), and the plain output-redirect opens
    with `O_WRONLY | O_CREAT` only, without a truncate flag. -/
theorem C7_counterexample_redirects_ignored :
    handle_redirect (some (Redirection.append "log.txt")) 3 = [] ∧
    handle_redirect (some (Redirection.both "log.txt")) 3 = [] ∧
    handle_redirect (some (Redirection.stdOut "log.txt")) 3 =
      [FdAction.openFile "log.txt" [OFlag.O_WRONLY, OFlag.O_CREAT],
       FdAction.closeFd STDOUT_FILENO, FdAction.dupTo 3 STDOUT_FILENO,
       FdAction.closeFd 3] := by
  refine ⟨rfl, rfl, rfl⟩

/-- C7 (amended): for every stage, a plain output-redirect opens the target
    write-only with create (no truncate flag) and duplicates the opened
    descriptor onto standard output before exec; append-redirects and
    combined-streams redirects are not handled and apply no redirection. -/
theorem C7_redirect_behaviour (path : String) (fd : Nat) :
    handle_redirect (some (Redirection.stdOut path)) fd =
      [FdAction.openFile path [OFlag.O_WRONLY, OFlag.O_CREAT],
       FdAction.closeFd STDOUT_FILENO, FdAction.dupTo fd STDOUT_FILENO,
       FdAction.closeFd fd] ∧
    OFlag.O_TRUNC ∉ [OFlag.O_WRONLY, OFlag.O_CREAT] ∧
    OFlag.O_APPEND ∉ [OFlag.O_WRONLY, OFlag.O_CREAT] ∧
    handle_redirect (some (Redirection.append path)) fd = [] ∧
    handle_redirect (some (Redirection.both path)) fd = [] ∧
    handle_redirect none fd = [] := by
  refine ⟨rfl, by decide, by decide, rfl, rfl, rfl⟩

theorem jobs_lines_eq_map (w : Worker) (l : List (Nat × Nat × String))
    (h : ∀ p ∈ l, ∃ st, is_group_stop w p.2.1 = some (some st)) :
    jobs_lines w l =
      some (l.map (fun p =>
        Effect.printOut (mk_jobs_line p.1 (group_stopped w p.2.1) p.2.2))) := by
  induction l with
  | nil => rfl
  | cons p rest ih =>
    obtain ⟨jid, pgid, cmd⟩ := p
    obtain ⟨st, hst⟩ := h (jid, pgid, cmd) (List.mem_cons_self _ _)
    have hrest := ih (fun q hq => h q (List.mem_cons_of_mem _ hq))
    have hflag : group_stopped w pgid = st := by
      cases st <;> simp [group_stopped, hst]
    simp [jobs_lines, hst, hrest, hflag]

/-- C8: whenever every job's group and member pids are present in the registry
    (which the worker maintains), the `jobs` built-in prints exactly one line
    per live job, in job-table (ascending id) order, each formatted
    `[<job_id>] <Running|Stopped>\t<command_line>` with the Stopped label
    exactly when the fully-stopped query answers true; it never panics, sets
    the status to 0 and ends by sending `Continue(0)`. -/
theorem C8_run_jobs_output (w : Worker)
    (h : ∀ p ∈ w.jobs, ∃ st, is_group_stop w p.2.1 = some (some st)) :
    run_jobs w =
      some ({ w with exit_val := 0 },
        w.jobs.map (fun p =>
          Effect.printOut (mk_jobs_line p.1 (group_stopped w p.2.1) p.2.2))
          ++ [Effect.send (ShellMsg.Continue 0)]) ∧
    (List.Pairwise (fun p q => p.1 < q.1) w.jobs →
      List.Pairwise (· < ·) (w.jobs.map (fun p => p.1))) := by
  constructor
  · simp [run_jobs, jobs_lines_eq_map w w.jobs h]
  · intro hs
    exact List.pairwise_map.mpr hs

/-- Two live jobs: job 0 (group 20) fully stopped, job 1 (group 30) running. -/
def c8w : Worker :=
  { exit_val := 2, fg := none, jobs := [(0, 20, "sleep 100"), (1, 30, "cat")],
    pgid_to_pids := [(20, 0, [21, 22]), (30, 1, [30])],
    pid_to_info := [(21, { state := ProcState.Stop, pgid := 20 }),
                    (22, { state := ProcState.Stop, pgid := 20 }),
                    (30, { state := ProcState.Run, pgid := 30 })],
    shell_pgid := 10 }

/-- Witness for C8: the two jobs of `c8w` print exactly two lines, in ascending
    job-id order, with matching state labels. -/
theorem C8_run_jobs_output_witness :
    run_jobs c8w = some ({ c8w with exit_val := 0 },
      [Effect.printOut "[0] Stopped\tsleep 100",
       Effect.printOut "[1] Running\tcat",
       Effect.send (ShellMsg.Continue 0)]) :=
  ((C8_run_jobs_output c8w (by decide)).1).trans (by rfl)

/-- A worker with one stopped job `[1] cat` in group 7 and last status 0. -/
def c10w : Worker :=
  { exit_val := 0, fg := none, jobs := [(1, 7, "cat")],
    pgid_to_pids := [(7, 1, [7])],
    pid_to_info := [(7, { state := ProcState.Stop, pgid := 7 })],
    shell_pgid := 10 }

/-- C10: refuted as stated — a successful `fg` also changes the last recorded
    status, which `run_fg` provisionally sets to 1 before looking the job up
    and never resets on success. -/
theorem C10_counterexample_status_changed :
    (run_fg c10w 1).1.exit_val ≠ c10w.exit_val := by
  decide

/-- C10 (amended): a successful `fg` on a live job changes only the
    foreground-group field and the last recorded status (provisionally set
    to 1), emitting exactly the restart notice, the terminal hand-off and the
    group SIGCONT, and no message to the front end; the job table, group table
    and recorded process states are untouched — in particular a process keeps
    its recorded state, and flips to Running only when `process_continue`
    reaps a Continued notification for it. -/
theorem C10_fg_frame (w : Worker) (n : Int) (pgid : Nat) (cmd : String)
    (h : alist_lookup (i32_as_usize n) w.jobs = some (pgid, cmd)) :
    run_fg w n = ({ w with exit_val := 1, fg := some pgid },
      [Effect.printErr (restart_notice n cmd), Effect.setFgTerm pgid,
       Effect.contSig pgid]) ∧
    (∀ pid info, alist_lookup pid (run_fg w n).1.pid_to_info = some info →
      alist_lookup pid (process_continue (run_fg w n).1 pid).pid_to_info =
        some { info with state := ProcState.Run }) := by
  have h1 : run_fg w n = ({ w with exit_val := 1, fg := some pgid },
      [Effect.printErr (restart_notice n cmd), Effect.setFgTerm pgid,
       Effect.contSig pgid]) := by
    simp [run_fg, h]
  refine ⟨h1, ?_⟩
  intro pid info hl
  rw [h1] at hl ⊢
  simp only at hl
  simp [process_continue, set_pid_state, hl, alist_lookup_insert_self]

/-- Witness for C10's amended theorem on the concrete worker `c10w`. -/
theorem C10_fg_frame_witness :
    alist_lookup (i32_as_usize 1) c10w.jobs = some (7, "cat") ∧
    run_fg c10w 1 = ({ c10w with exit_val := 1, fg := some 7 },
      [Effect.printErr (restart_notice 1 "cat"), Effect.setFgTerm 7,
       Effect.contSig 7]) :=
  ⟨by decide, (C10_fg_frame c10w 1 7 "cat" (by decide)).1⟩
